import Mathlib

/-!
Shallow embedding of the `HomePage` component of the news-app frontend
(`src/pages/HomePage.tsx`), together with theorems settling the frozen
claims about its behaviour.

The component is a thin client: state transitions (`fetchCityNews`,
`fetchGlobalNews`, page changes) are embedded as pure functions from the
component state and the outcomes of the network fetches to the next state,
paired with the list of requests the transition issued.  JavaScript strings
are modelled as Lean `String`s; JavaScript `fetch` outcomes are modelled by
`FetchResult` (a response with status/statusText/parsed body, or a thrown
network-level failure).
-/

namespace NewsApp

/-- Article shape returned by the news endpoints (`ArticleDto` in the
source).  `publishedAtString` models the alternate upstream field consulted
by the normalisation step; `none` models an absent field and `some ""` a
present-but-empty (falsy) one. -/
structure ArticleDto where
  sourceName : String
  author : Option String
  title : String
  description : String
  url : String
  urlToImage : String
  publishedAt : String
  content : Option String
  publishedAtString : Option String
  deriving Repr, DecidableEq

/-- City metadata shape returned by `/api/cities/{city}/{state}`
(`CityDto` in the source). -/
structure CityDto where
  id : String
  city : String
  stateName : String
  countyName : String
  lat : String
  lng : String
  population : Option Int
  timezone : String
  deriving Repr, DecidableEq

/-- Component-local state of `HomePage` (the `useState` hooks). -/
structure HomeState where
  searchQuery : String
  cityOptions : List String
  news : List ArticleDto
  cityInfo : Option CityDto
  error : Option String
  loading : Bool
  currentPage : Nat
  deriving Repr, DecidableEq

/-- An HTTP response as seen by the component: status, statusText and the
already-parsed JSON body.  `ok` in the source (`Response.ok`) means the
status is in the 2xx range. -/
structure HttpResponse (α : Type) where
  status : Nat
  statusText : String
  body : α
  deriving Repr, DecidableEq

/-- Outcome of one `fetch` call: either a response arrived (of any status)
or the call threw a network-level failure. -/
inductive FetchResult (α : Type) where
  | resp (r : HttpResponse α)
  | thrown
  deriving Repr, DecidableEq

/-- `Response.ok`: true exactly for 2xx statuses. -/
def respOk {α : Type} (r : HttpResponse α) : Bool :=
  200 ≤ r.status && r.status ≤ 299

/-- Requests the component can issue, used to observe which network calls a
transition performed. -/
inductive Request where
  | cityInfoReq (city stateName : String)
  | newsReq (city stateName : String)
  | globalNewsReq
  deriving Repr, DecidableEq

/-! ### Result renderer: pagination (lines 222-225 of the source) -/

/-- `ARTICLES_PER_PAGE` constant from the source. -/
def ARTICLES_PER_PAGE : Nat := 10

/-- `indexOfLastArticle = currentPage * ARTICLES_PER_PAGE`. -/
def indexOfLastArticle (currentPage : Nat) : Nat :=
  currentPage * ARTICLES_PER_PAGE

/-- `indexOfFirstArticle = indexOfLastArticle - ARTICLES_PER_PAGE`. -/
def indexOfFirstArticle (currentPage : Nat) : Nat :=
  indexOfLastArticle currentPage - ARTICLES_PER_PAGE

/-- `news.slice(indexOfFirstArticle, indexOfLastArticle)`: JavaScript
`slice(a, b)` keeps the elements at indices `[a, b)`, i.e. drops `a`
elements then takes `b - a`. -/
def currentArticles (news : List ArticleDto) (currentPage : Nat) : List ArticleDto :=
  (news.drop (indexOfFirstArticle currentPage)).take
    (indexOfLastArticle currentPage - indexOfFirstArticle currentPage)

/-- `totalPages = Math.ceil(news.length / ARTICLES_PER_PAGE)`, as exact
natural-number ceiling division. -/
def totalPages (news : List ArticleDto) : Nat :=
  (news.length + (ARTICLES_PER_PAGE - 1)) / ARTICLES_PER_PAGE

/-- The `onChange` handler of the `Pagination` control: stores the new page
number, touching nothing else of the state. -/
def handlePageChange (st : HomeState) (page : Nat) : HomeState :=
  { st with currentPage := page }

/-! ### Search orchestrator: `fetchCityNews` (lines 94-169 of the source) -/

/-- JavaScript `String.prototype.trim`: strip leading and trailing
whitespace.  Implemented by structural recursion over the character list so
that concrete instances evaluate inside the kernel. -/
def jsTrim (s : String) : String :=
  String.mk
    (((s.data.dropWhile Char.isWhitespace).reverse.dropWhile
        Char.isWhitespace).reverse)

/-- JavaScript `String.prototype.includes` for a one-character needle. -/
def jsIncludes (s : String) (c : Char) : Bool :=
  s.data.contains c

/-- JavaScript `String.prototype.toLowerCase` (ASCII case folding). -/
def jsToLower (s : String) : String :=
  String.mk (s.data.map Char.toLower)

/-- Helper for `jsSplit`: walk the characters, cutting at each separator;
`acc` holds the current piece reversed. -/
def jsSplitAux (sep : Char) : List Char → List Char → List String
  | [], acc => [String.mk acc.reverse]
  | c :: cs, acc =>
      if c = sep then String.mk acc.reverse :: jsSplitAux sep cs []
      else jsSplitAux sep cs (c :: acc)

/-- JavaScript `String.prototype.split` with a one-character separator:
`"a,,b".split(',') = ["a", "", "b"]` and `"".split(',') = [""]`. -/
def jsSplit (s : String) (sep : Char) : List String :=
  jsSplitAux sep s.data []

/-- Timestamp normalisation applied to each article of a 2xx news
response: `{ ...article, publishedAt: article.publishedAtString ||
article.publishedAt }`.  A missing (`none`) or empty (falsy) alternate
field falls back to the original `publishedAt`; the spread keeps every
other field as it was. -/
def normalizeArticle (a : ArticleDto) : ArticleDto :=
  { a with publishedAt :=
      match a.publishedAtString with
      | some s => if s = "" then a.publishedAt else s
      | none => a.publishedAt }

/-- The canonical location string of a query: the first suggestion option
matching the query case-insensitively, or the raw query when none matches
(lines 100-103 of the source). -/
def canonicalCityState (st : HomeState) : String :=
  (st.cityOptions.find? (fun o => jsToLower o == jsToLower st.searchQuery)).getD
    st.searchQuery

/-- The `city` component of `cityState.split(',').map(s => s.trim())`:
the first comma-separated piece, trimmed. -/
def parsedCity (st : HomeState) : String :=
  ((jsSplit (canonicalCityState st) ',').map jsTrim).getD 0 ""

/-- The `stateName` component: the second comma-separated piece, trimmed
(the default `""` models JavaScript destructuring yielding `undefined`,
which is falsy exactly like the empty string at the validation check). -/
def parsedState (st : HomeState) : String :=
  ((jsSplit (canonicalCityState st) ',').map jsTrim).getD 1 ""

/-- The conditions under which `fetchCityNews` passes all three validation
checks and reaches the network calls. -/
def ValidQuery (st : HomeState) : Prop :=
  jsTrim st.searchQuery ≠ "" ∧ jsIncludes (canonicalCityState st) ',' = true ∧
    parsedCity st ≠ "" ∧ parsedState st ≠ ""

instance (st : HomeState) : Decidable (ValidQuery st) := by
  unfold ValidQuery; infer_instance

/-- Error message literals from the source. -/
def emptyQueryMsg : String := "Please enter a city and state."

/-- Comma-format validation error (line 107). -/
def commaErrMsg : String :=
  "Please enter city and state separated by a comma (e.g., Miami, Florida)."

/-- Empty city/state validation error (line 115). -/
def invalidNameMsg : String := "Invalid city or state name. Please check your input."

/-- 401 error message shared by both news paths (lines 158 and 192). -/
def unauthorizedMsg : String := "Unauthorized: please enter your login and password."

/-- Generic HTTP error of the city news path (line 161). -/
def newsHttpErrMsg (status : Nat) (statusText : String) : String :=
  "Error getting news: " ++ toString status ++ " " ++ statusText

/-- Catch-all network error of the city news path (line 165). -/
def newsCatchMsg : String := "Error getting news. Please try again."

/-- Generic HTTP error of the global news path (line 194). -/
def globalHttpErrMsg (status : Nat) (statusText : String) : String :=
  "Error: " ++ toString status ++ " " ++ statusText

/-- Catch-all network error of the global news path (line 197). -/
def globalCatchMsg : String := "Network error"

/-- The `fetchCityNews` handler.  Its two `await fetch(...)` outcomes are
passed in as `cir` (city-info endpoint) and `nres` (news endpoint); the
returned list records which requests were actually issued, in order.  A
thrown city-info fetch jumps straight to the shared `catch`, so the news
request is never issued in that case. -/
def fetchCityNews (st : HomeState) (cir : FetchResult CityDto)
    (nres : FetchResult (List ArticleDto)) : HomeState × List Request :=
  if jsTrim st.searchQuery = "" then
    ({ st with error := some emptyQueryMsg }, [])
  else if jsIncludes (canonicalCityState st) ',' = false then
    ({ st with error := some commaErrMsg }, [])
  else if parsedCity st = "" ∨ parsedState st = "" then
    ({ st with error := some invalidNameMsg }, [])
  else
    let city := parsedCity st
    let stateName := parsedState st
    let st1 : HomeState :=
      { st with error := none, loading := true, news := [], cityInfo := none,
                currentPage := 1 }
    match cir with
    | FetchResult.thrown =>
        ({ st1 with error := some newsCatchMsg, loading := false },
         [Request.cityInfoReq city stateName])
    | FetchResult.resp cr =>
        let st2 := if respOk cr then { st1 with cityInfo := some cr.body } else st1
        let reqs := [Request.cityInfoReq city stateName,
                     Request.newsReq city stateName]
        match nres with
        | FetchResult.thrown =>
            ({ st2 with error := some newsCatchMsg, loading := false }, reqs)
        | FetchResult.resp nr =>
            if respOk nr then
              ({ st2 with news := nr.body.map normalizeArticle, loading := false },
               reqs)
            else if nr.status = 401 then
              ({ st2 with error := some unauthorizedMsg, loading := false }, reqs)
            else
              ({ st2 with error := some (newsHttpErrMsg nr.status nr.statusText),
                          loading := false }, reqs)

/-- The `fetchGlobalNews` handler (lines 171-201): no validation, no
city-info fetch, a single request to the global news endpoint. -/
def fetchGlobalNews (st : HomeState) (nres : FetchResult (List ArticleDto)) :
    HomeState × List Request :=
  let st1 : HomeState :=
    { st with loading := true, error := none, news := [], cityInfo := none,
              currentPage := 1 }
  match nres with
  | FetchResult.thrown =>
      ({ st1 with error := some globalCatchMsg, loading := false },
       [Request.globalNewsReq])
  | FetchResult.resp nr =>
      if respOk nr then
        ({ st1 with news := nr.body.map normalizeArticle, loading := false },
         [Request.globalNewsReq])
      else if nr.status = 401 then
        ({ st1 with error := some unauthorizedMsg, loading := false },
         [Request.globalNewsReq])
      else
        ({ st1 with error := some (globalHttpErrMsg nr.status nr.statusText),
                    loading := false }, [Request.globalNewsReq])

/-! ### Result renderer: date formatting and description truncation -/

/-- Model of `Date.prototype.toLocaleDateString` per ECMA-402: formatting
an invalid date (time value NaN, modelled as `none`) yields the string
"Invalid Date"; the call does not throw on an invalid date, so the result
is always `Except.ok`.  `render` abstracts the locale-dependent formatting
of a valid time value. -/
def toLocaleDateString (render : Int → String) : Option Int → Except Unit String
  | none => Except.ok "Invalid Date"
  | some t => Except.ok (render t)

/-- `formatDate` (lines 208-220 of the source): `new Date(dateString)`
parses to a time value or NaN (`parse` abstracts the host date parser,
returning `none` for unparseable strings); the surrounding `try`/`catch`
returns `''` if the formatting call throws. -/
def formatDate (parse : String → Option Int) (render : Int → String)
    (dateString : String) : String :=
  match toLocaleDateString render (parse dateString) with
  | Except.ok out => out
  | Except.error _ => ""

/-- JavaScript `s.substring(a, b)` for `a ≤ b`: the characters at indices
`[a, b)`. -/
def jsSubstring (s : String) (a b : Nat) : String :=
  String.mk ((s.data.drop a).take (b - a))

/-- Description rendering (lines 354-357 of the source):
`description.substring(0, 120)` followed by `'...'` exactly when
`description.length > 120`. -/
def renderDescription (description : String) : String :=
  jsSubstring description 0 120 ++
    (if 120 < description.length then "..." else "")

/-! ### Concrete sample data for witnesses and counterexamples -/

/-- A concrete article used to build concrete states. -/
def sampleArticle : ArticleDto :=
  { sourceName := "BBC News", author := some "Jane Doe", title := "A title",
    description := "A description", url := "https://example.com/a",
    urlToImage := "https://example.com/i.jpg",
    publishedAt := "2024-05-01T10:00:00Z", content := none,
    publishedAtString := none }

/-- A concrete city record. -/
def sampleCity : CityDto :=
  { id := "1", city := "Miami", stateName := "Florida",
    countyName := "Miami-Dade", lat := "25.7617", lng := "-80.1918",
    population := some 442241, timezone := "America/New_York" }

/-- The initial component state (the `useState` initial values). -/
def initialState : HomeState :=
  { searchQuery := "", cityOptions := [], news := [], cityInfo := none,
    error := none, loading := false, currentPage := 1 }

/-- A concrete state holding a valid location query. -/
def queryMiami : HomeState :=
  { initialState with searchQuery := "Miami, Florida" }

/-! ### Claim C1: pagination -/

/-- C1: for every article list of length N and every page p with
1 ≤ p ≤ totalPages, the renderer computes totalPages = ceil(N/10), the
visible slice is the articles at indices [(p-1)·10, p·10) and has length
min(10, N - 10·(p-1)), and changing the page leaves the article list
unchanged. -/
theorem pagination_correct (news : List ArticleDto) (p : Nat) (st : HomeState)
    (h1 : 1 ≤ p) (h2 : p ≤ totalPages news) :
    totalPages news = (news.length + 9) / 10 ∧
    currentArticles news p = (news.drop ((p - 1) * 10)).take 10 ∧
    (currentArticles news p).length = min 10 (news.length - 10 * (p - 1)) ∧
    (handlePageChange st p).news = st.news := by
  have hslice : currentArticles news p = (news.drop ((p - 1) * 10)).take 10 := by
    simp only [currentArticles, indexOfFirstArticle, indexOfLastArticle,
      ARTICLES_PER_PAGE]
    rw [show p * 10 - (p * 10 - 10) = 10 from by omega,
        show p * 10 - 10 = (p - 1) * 10 from by omega]
  refine ⟨rfl, hslice, ?_, rfl⟩
  rw [hslice]
  simp only [List.length_take, List.length_drop]
  omega

/-- Witness for C1 at the spec's own example: 25 articles, page 3 is the
slice of length 5. -/
theorem pagination_correct_witness :
    1 ≤ 3 ∧ 3 ≤ totalPages (List.replicate 25 sampleArticle) ∧
    (currentArticles (List.replicate 25 sampleArticle) 3).length =
      min 10 ((List.replicate 25 sampleArticle).length - 10 * (3 - 1)) :=
  ⟨by decide, by decide,
    (pagination_correct (List.replicate 25 sampleArticle) 3 initialState
      (by decide) (by decide)).2.2.1⟩

/-! ### Claim C2: comma-format validation -/

/-- C2 counterexample: the empty query's canonical location string contains
no comma, yet `fetchCityNews` reports the empty-query message, not the
comma-format message (and the claim asserts the comma-format message for
every comma-free canonical string). -/
theorem comma_claim_fails_on_empty_query :
    jsIncludes (canonicalCityState initialState) ',' = false ∧
    (fetchCityNews initialState FetchResult.thrown FetchResult.thrown).1.error ≠
      some commaErrMsg ∧
    (fetchCityNews initialState FetchResult.thrown FetchResult.thrown).1.error =
      some emptyQueryMsg := by decide

/-- C2 amended: for every state whose query is non-empty after trimming and
whose canonical location string contains no comma, `fetchCityNews` sets
exactly the comma-format error, issues no request, and changes nothing else
of the state. -/
theorem comma_error_no_fetch (st : HomeState) (cir : FetchResult CityDto)
    (nres : FetchResult (List ArticleDto))
    (h1 : jsTrim st.searchQuery ≠ "")
    (h2 : jsIncludes (canonicalCityState st) ',' = false) :
    fetchCityNews st cir nres = ({ st with error := some commaErrMsg }, []) := by
  unfold fetchCityNews
  rw [if_neg h1, if_pos h2]

/-- Witness for C2 at the comma-free query "Miami". -/
theorem comma_error_no_fetch_witness :
    fetchCityNews { initialState with searchQuery := "Miami" }
        FetchResult.thrown FetchResult.thrown =
      ({ initialState with searchQuery := "Miami",
                           error := some commaErrMsg }, []) :=
  comma_error_no_fetch _ _ _ (by decide) (by decide)

/-! ### Claim C3: exactly-one-comma validity -/

/-- C3 counterexample: the input "Miami, Florida, USA" contains two commas,
yet `fetchCityNews` accepts it and issues both network requests (splitting
takes the first two comma-separated pieces). -/
theorem two_commas_accepted :
    ("Miami, Florida, USA".toList.count ',') = 2 ∧
    (fetchCityNews { initialState with searchQuery := "Miami, Florida, USA" }
        (FetchResult.resp ⟨200, "OK", sampleCity⟩)
        (FetchResult.resp ⟨200, "OK", ([] : List ArticleDto)⟩)).2 =
      [Request.cityInfoReq "Miami" "Florida",
       Request.newsReq "Miami" "Florida"] := by decide

/-- C3 amended: `fetchCityNews` issues a network request if and only if the
query is non-empty after trimming, the canonical location string contains
at least one comma, and the first two comma-separated pieces are non-empty
after trimming (extra commas beyond the first are not rejected; the pieces
after the second are ignored). -/
theorem fetch_issued_iff_valid (st : HomeState) (cir : FetchResult CityDto)
    (nres : FetchResult (List ArticleDto)) :
    (fetchCityNews st cir nres).2 ≠ [] ↔ ValidQuery st := by
  unfold fetchCityNews
  split_ifs with h1 h2 h3
  · simp [ValidQuery, h1]
  · simp only [ne_eq, not_true_eq_false, false_iff]
    intro hv
    exact absurd hv.2.1 (by simp [h2])
  · simp only [ne_eq, not_true_eq_false, false_iff]
    intro hv
    rcases h3 with h3 | h3
    · exact hv.2.2.1 h3
    · exact hv.2.2.2 h3
  · have hv : ValidQuery st := by
      refine ⟨h1, ?_, ?_, ?_⟩
      · revert h2; cases jsIncludes (canonicalCityState st) ',' <;> simp
      · intro hc; exact h3 (Or.inl hc)
      · intro hc; exact h3 (Or.inr hc)
    simp only [hv, iff_true]
    cases cir with
    | thrown => simp
    | resp cr =>
        cases nres with
        | thrown => simp
        | resp nr =>
            dsimp only
            split_ifs <;> simp

/-! ### Claim C4: news-endpoint response handling -/

/-- C4: for every news-endpoint response in `fetchCityNews` on a valid
query: a 2xx response stores the normalised articles and sets no error; a
401 sets exactly the unauthorized message and leaves city-info populated
earlier in the flow unchanged; any other non-2xx status sets
"Error getting news: status statusText"; a thrown fetch sets
"Error getting news. Please try again.". -/
theorem news_response_outcomes (st : HomeState) (cr : HttpResponse CityDto)
    (nres : FetchResult (List ArticleDto)) (h : ValidQuery st) :
    (∀ nr, nres = FetchResult.resp nr → respOk nr = true →
      (fetchCityNews st (FetchResult.resp cr) nres).1.news =
        nr.body.map normalizeArticle ∧
      (fetchCityNews st (FetchResult.resp cr) nres).1.error = none) ∧
    (∀ nr, nres = FetchResult.resp nr → nr.status = 401 →
      (fetchCityNews st (FetchResult.resp cr) nres).1.error =
        some unauthorizedMsg ∧
      (fetchCityNews st (FetchResult.resp cr) nres).1.cityInfo =
        (if respOk cr then some cr.body else none)) ∧
    (∀ nr, nres = FetchResult.resp nr → respOk nr = false → nr.status ≠ 401 →
      (fetchCityNews st (FetchResult.resp cr) nres).1.error =
        some (newsHttpErrMsg nr.status nr.statusText)) ∧
    (nres = FetchResult.thrown →
      (fetchCityNews st (FetchResult.resp cr) nres).1.error =
        some newsCatchMsg) := by
  obtain ⟨h1, h2, h3, h4⟩ := h
  have h2' : ¬ (jsIncludes (canonicalCityState st) ',' = false) := by simp [h2]
  have h3' : ¬ (parsedCity st = "" ∨ parsedState st = "") := by
    push_neg; exact ⟨h3, h4⟩
  unfold fetchCityNews
  rw [if_neg h1, if_neg h2', if_neg h3']
  refine ⟨?_, ?_, ?_, ?_⟩
  · rintro nr rfl hok
    dsimp only
    rw [if_pos hok]
    exact ⟨rfl, by by_cases hc : respOk cr = true <;> simp [hc]⟩
  · rintro nr rfl h401
    have hok : respOk nr = false := by unfold respOk; rw [h401]; rfl
    dsimp only
    rw [if_neg (by simp [hok]), if_pos h401]
    exact ⟨rfl, by by_cases hc : respOk cr = true <;> simp [hc]⟩
  · rintro nr rfl hok hne
    dsimp only
    rw [if_neg (by simp [hok]), if_neg hne]
  · rintro rfl
    rfl

/-- Witness for C4: valid query, successful city-info fetch, then a 401
from the news endpoint: the unauthorized message is set and the city-info
fetched earlier in the flow is kept. -/
theorem news_response_outcomes_witness :
    (fetchCityNews queryMiami (FetchResult.resp ⟨200, "OK", sampleCity⟩)
        (FetchResult.resp ⟨401, "Unauthorized", ([] : List ArticleDto)⟩)).1.error =
      some unauthorizedMsg ∧
    (fetchCityNews queryMiami (FetchResult.resp ⟨200, "OK", sampleCity⟩)
        (FetchResult.resp ⟨401, "Unauthorized", ([] : List ArticleDto)⟩)).1.cityInfo =
      some sampleCity := by
  have h := (news_response_outcomes queryMiami ⟨200, "OK", sampleCity⟩
      (FetchResult.resp ⟨401, "Unauthorized", []⟩) (by decide)).2.1
      ⟨401, "Unauthorized", []⟩ rfl rfl
  exact ⟨h.1, by rw [h.2]; rfl⟩

/-! ### Claim C5: best-effort city-info lookup -/

/-- C5 counterexample: a network-level failure of the city-info fetch IS
fatal: the shared catch surfaces "Error getting news. Please try again."
and the news request is never issued. -/
theorem cityinfo_network_failure_fatal :
    (fetchCityNews queryMiami FetchResult.thrown
        (FetchResult.resp ⟨200, "OK", ([] : List ArticleDto)⟩)).1.error =
      some newsCatchMsg ∧
    (fetchCityNews queryMiami FetchResult.thrown
        (FetchResult.resp ⟨200, "OK", ([] : List ArticleDto)⟩)).2 =
      [Request.cityInfoReq "Miami" "Florida"] := by decide

/-- C5 amended: for every non-success HTTP *status* outcome of the
city-info fetch (the fetch returned a response with `ok` false), the
search is unaffected by that outcome — the final state is independent of
the failing response, city-info stays null, and the news fetch is still
issued.  (A network-level failure of the city-info fetch, by contrast,
aborts the flow; see the counterexample.) -/
theorem cityinfo_http_failure_nonfatal (st : HomeState)
    (cr cr' : HttpResponse CityDto) (nres : FetchResult (List ArticleDto))
    (h : ValidQuery st) (hcr : respOk cr = false) (hcr' : respOk cr' = false) :
    fetchCityNews st (FetchResult.resp cr) nres =
      fetchCityNews st (FetchResult.resp cr') nres ∧
    (fetchCityNews st (FetchResult.resp cr) nres).1.cityInfo = none ∧
    (fetchCityNews st (FetchResult.resp cr) nres).2 =
      [Request.cityInfoReq (parsedCity st) (parsedState st),
       Request.newsReq (parsedCity st) (parsedState st)] := by
  obtain ⟨h1, h2, h3, h4⟩ := h
  have h2' : ¬ (jsIncludes (canonicalCityState st) ',' = false) := by simp [h2]
  have h3' : ¬ (parsedCity st = "" ∨ parsedState st = "") := by
    push_neg; exact ⟨h3, h4⟩
  unfold fetchCityNews
  simp only [if_neg h1, if_neg h2', if_neg h3']
  cases nres with
  | thrown => simp [hcr, hcr']
  | resp nr =>
      dsimp only
      by_cases hok : respOk nr = true
      · simp [hok, hcr, hcr']
      · by_cases h401 : nr.status = 401
        · simp [hok, h401, hcr, hcr']
        · simp [hok, h401, hcr, hcr']

/-- Witness for C5: a 404 city-info response leaves city-info null and the
news fetch proceeds and succeeds. -/
theorem cityinfo_http_failure_nonfatal_witness :
    (fetchCityNews queryMiami (FetchResult.resp ⟨404, "Not Found", sampleCity⟩)
        (FetchResult.resp ⟨200, "OK", ([] : List ArticleDto)⟩)).1.cityInfo = none ∧
    (fetchCityNews queryMiami (FetchResult.resp ⟨404, "Not Found", sampleCity⟩)
        (FetchResult.resp ⟨200, "OK", ([] : List ArticleDto)⟩)).2 =
      [Request.cityInfoReq (parsedCity queryMiami) (parsedState queryMiami),
       Request.newsReq (parsedCity queryMiami) (parsedState queryMiami)] :=
  (cityinfo_http_failure_nonfatal queryMiami ⟨404, "Not Found", sampleCity⟩
      ⟨500, "Internal Server Error", sampleCity⟩
      (FetchResult.resp ⟨200, "OK", []⟩) (by decide) (by decide) (by decide)).2

/-! ### Claim C6: clean retryable state on error paths -/

/-- C6 counterexample: on the 401 error path following a successful
city-info fetch, the final state still holds city-info — the prior partial
result of the flow is NOT cleared. -/
theorem error_path_keeps_cityinfo :
    (fetchCityNews queryMiami (FetchResult.resp ⟨200, "OK", sampleCity⟩)
        (FetchResult.resp ⟨401, "Unauthorized", ([] : List ArticleDto)⟩)).1.error ≠
      none ∧
    (fetchCityNews queryMiami (FetchResult.resp ⟨200, "OK", sampleCity⟩)
        (FetchResult.resp ⟨401, "Unauthorized", ([] : List ArticleDto)⟩)).1.cityInfo ≠
      none := by decide

/-- C6 amended: validation-error paths (no request issued) set only the
error message, leaving loading, articles, city-info and page unchanged;
on every path that issued a request, loading ends cleared, and on its
error outcomes the article list ends empty while city-info is either null
or exactly the city fetched successfully earlier in the same flow. -/
theorem error_paths_recoverable (st : HomeState) (cir : FetchResult CityDto)
    (nres : FetchResult (List ArticleDto)) :
    ((fetchCityNews st cir nres).2 = [] →
      (fetchCityNews st cir nres).1.loading = st.loading ∧
      (fetchCityNews st cir nres).1.news = st.news ∧
      (fetchCityNews st cir nres).1.cityInfo = st.cityInfo ∧
      (fetchCityNews st cir nres).1.currentPage = st.currentPage) ∧
    ((fetchCityNews st cir nres).2 ≠ [] →
      (fetchCityNews st cir nres).1.loading = false ∧
      ((fetchCityNews st cir nres).1.error ≠ none →
        (fetchCityNews st cir nres).1.news = [] ∧
        ((fetchCityNews st cir nres).1.cityInfo = none ∨
          ∃ cr, cir = FetchResult.resp cr ∧ respOk cr = true ∧
            (fetchCityNews st cir nres).1.cityInfo = some cr.body))) := by
  unfold fetchCityNews
  split_ifs with h1 h2 h3
  · exact ⟨fun _ => ⟨rfl, rfl, rfl, rfl⟩, fun hne => absurd rfl hne⟩
  · exact ⟨fun _ => ⟨rfl, rfl, rfl, rfl⟩, fun hne => absurd rfl hne⟩
  · exact ⟨fun _ => ⟨rfl, rfl, rfl, rfl⟩, fun hne => absurd rfl hne⟩
  · cases cir with
    | thrown =>
        refine ⟨fun hsnd => absurd hsnd (by simp), fun _ => ⟨rfl, fun _ => ⟨rfl, Or.inl rfl⟩⟩⟩
    | resp cr =>
        cases nres with
        | thrown =>
            refine ⟨fun hsnd => absurd hsnd (by simp), fun _ => ⟨rfl, fun _ => ?_⟩⟩
            by_cases hc : respOk cr = true
            · exact ⟨by simp [hc], Or.inr ⟨cr, rfl, hc, by simp [hc]⟩⟩
            · exact ⟨by simp [hc], Or.inl (by simp [hc])⟩
        | resp nr =>
            dsimp only
            by_cases hok : respOk nr = true
            · refine ⟨fun hsnd => absurd hsnd (by simp [hok]),
                fun _ => ⟨by simp [hok], fun herr => ?_⟩⟩
              by_cases hc : respOk cr = true <;> simp [hok, hc] at herr
            · by_cases h401 : nr.status = 401
              · refine ⟨fun hsnd => absurd hsnd (by simp [hok, h401]),
                  fun _ => ⟨by simp [hok, h401], fun _ => ?_⟩⟩
                by_cases hc : respOk cr = true
                · exact ⟨by simp [hok, h401, hc],
                    Or.inr ⟨cr, rfl, hc, by simp [hok, h401, hc]⟩⟩
                · exact ⟨by simp [hok, h401, hc],
                    Or.inl (by simp [hok, h401, hc])⟩
              · refine ⟨fun hsnd => absurd hsnd (by simp [hok, h401]),
                  fun _ => ⟨by simp [hok, h401], fun _ => ?_⟩⟩
                by_cases hc : respOk cr = true
                · exact ⟨by simp [hok, h401, hc],
                    Or.inr ⟨cr, rfl, hc, by simp [hok, h401, hc]⟩⟩
                · exact ⟨by simp [hok, h401, hc],
                    Or.inl (by simp [hok, h401, hc])⟩

/-- Witness for C6: on the network-failure path the loading flag ends
cleared and the article list ends empty. -/
theorem error_paths_recoverable_witness :
    (fetchCityNews queryMiami FetchResult.thrown FetchResult.thrown).1.loading =
      false ∧
    (fetchCityNews queryMiami FetchResult.thrown FetchResult.thrown).1.news =
      [] := by
  have h := (error_paths_recoverable queryMiami FetchResult.thrown
      FetchResult.thrown).2 (by decide)
  exact ⟨h.1, (h.2 (by decide)).1⟩

/-! ### Claim C7: formatDate on invalid dates -/

/-- C7: on an unparseable date string the code returns "Invalid Date",
not the empty string: per ECMA-402, `toLocaleDateString` of an invalid
date does not throw but yields "Invalid Date", so the `catch` branch
returning `''` is unreachable.  The `fun _ => none` host parser models a
date string no host can parse. -/
theorem formatDate_invalid_yields_invalid_date :
    formatDate (fun _ => none) (fun _ => "May 1, 2024, 10:00 AM") "not-a-date" =
      "Invalid Date" ∧
    formatDate (fun _ => none) (fun _ => "May 1, 2024, 10:00 AM") "not-a-date" ≠
      "" := by decide

/-! ### Claim C8: description truncation -/

set_option maxRecDepth 4000 in
/-- C8 counterexample: a description of 121 characters renders as its
first 120 characters followed by the three-character "..." — not followed
by the one-character ellipsis "…" the claim states. -/
theorem truncation_appends_three_dots :
    renderDescription (String.mk (List.replicate 121 'a')) =
      String.mk (List.replicate 120 'a') ++ "..." ∧
    renderDescription (String.mk (List.replicate 121 'a')) ≠
      String.mk (List.replicate 120 'a') ++ "…" := by decide

/-- C8 amended: the renderer shows the first 120 characters of the
description and appends the three-dot suffix "..." if and only if the
description is longer than 120 characters; a description of at most 120
characters (in particular exactly 120) renders unchanged with no
suffix. -/
theorem renderDescription_truncation (d : String) :
    (d.length ≤ 120 → renderDescription d = d) ∧
    (120 < d.length →
      renderDescription d = String.mk (d.data.take 120) ++ "...") := by
  constructor
  · intro h
    unfold renderDescription jsSubstring
    rw [if_neg (by omega), String.append_empty, List.drop_zero]
    have : d.data.take (120 - 0) = d.data := List.take_of_length_le (by
      have : d.length = d.data.length := rfl
      omega)
    rw [this]
  · intro h
    unfold renderDescription jsSubstring
    rw [if_pos h, List.drop_zero]

/-- Witness for C8 at the two boundary lengths the claim names: exactly
120 characters renders unchanged, 121 characters renders truncated with
the suffix. -/
theorem renderDescription_truncation_witness :
    renderDescription (String.mk (List.replicate 120 'b')) =
      String.mk (List.replicate 120 'b') ∧
    renderDescription (String.mk (List.replicate 121 'b')) =
      String.mk ((String.mk (List.replicate 121 'b')).data.take 120) ++ "..." :=
  ⟨(renderDescription_truncation (String.mk (List.replicate 120 'b'))).1
      (by decide),
   (renderDescription_truncation (String.mk (List.replicate 121 'b'))).2
      (by decide)⟩

/-! ### Claim C9: global news path -/

/-- C9: the global news path performs no validation and no city-info fetch
(it holds for every state and issues exactly the one global request);
city-info is never populated and the page is reset; a 2xx stores the
normalised articles with no error, a non-2xx non-401 yields
"Error: status statusText", and a thrown fetch yields "Network error". -/
theorem global_news_path (st : HomeState) (nres : FetchResult (List ArticleDto)) :
    (fetchGlobalNews st nres).2 = [Request.globalNewsReq] ∧
    (fetchGlobalNews st nres).1.cityInfo = none ∧
    (fetchGlobalNews st nres).1.currentPage = 1 ∧
    (fetchGlobalNews st nres).1.loading = false ∧
    (∀ nr, nres = FetchResult.resp nr → respOk nr = true →
      (fetchGlobalNews st nres).1.news = nr.body.map normalizeArticle ∧
      (fetchGlobalNews st nres).1.error = none) ∧
    (∀ nr, nres = FetchResult.resp nr → respOk nr = false → nr.status ≠ 401 →
      (fetchGlobalNews st nres).1.error =
        some (globalHttpErrMsg nr.status nr.statusText)) ∧
    (nres = FetchResult.thrown →
      (fetchGlobalNews st nres).1.error = some globalCatchMsg) := by
  unfold fetchGlobalNews
  cases nres with
  | thrown =>
      refine ⟨rfl, rfl, rfl, rfl, ?_, ?_, fun _ => rfl⟩
      · rintro nr h; cases h
      · rintro nr h; cases h
  | resp nr =>
      dsimp only
      by_cases hok : respOk nr = true
      · rw [if_pos hok]
        refine ⟨rfl, rfl, rfl, rfl, ?_, ?_, ?_⟩
        · rintro nr' h _; cases h; exact ⟨rfl, rfl⟩
        · rintro nr' h hok' _; cases h; rw [hok] at hok'; cases hok'
        · rintro h; cases h
      · by_cases h401 : nr.status = 401
        · rw [if_neg hok, if_pos h401]
          refine ⟨rfl, rfl, rfl, rfl, ?_, ?_, ?_⟩
          · rintro nr' h hok'; cases h; exact absurd hok' hok
          · rintro nr' h _ hne; cases h; exact absurd h401 hne
          · rintro h; cases h
        · rw [if_neg hok, if_neg h401]
          refine ⟨rfl, rfl, rfl, rfl, ?_, ?_, ?_⟩
          · rintro nr' h hok'; cases h; exact absurd hok' hok
          · rintro nr' h _ _; cases h; rfl
          · rintro h; cases h

/-- Witness for C9: network failure on the global path yields exactly
"Network error". -/
theorem global_news_path_witness :
    (fetchGlobalNews initialState FetchResult.thrown).1.error =
      some globalCatchMsg :=
  (global_news_path initialState FetchResult.thrown).2.2.2.2.2.2 rfl

/-! ### Claim C10: timestamp normalisation frame -/

/-- C10: normalisation replaces only the `publishedAt` field — set to
`publishedAtString` when that field is present and non-empty, falling back
to the original `publishedAt` when it is absent or empty (falsy) — and
leaves every other field of the article unchanged. -/
theorem normalizeArticle_frame (a : ArticleDto) :
    (normalizeArticle a).sourceName = a.sourceName ∧
    (normalizeArticle a).author = a.author ∧
    (normalizeArticle a).title = a.title ∧
    (normalizeArticle a).description = a.description ∧
    (normalizeArticle a).url = a.url ∧
    (normalizeArticle a).urlToImage = a.urlToImage ∧
    (normalizeArticle a).content = a.content ∧
    (normalizeArticle a).publishedAtString = a.publishedAtString ∧
    ((a.publishedAtString = none ∨ a.publishedAtString = some "") →
      (normalizeArticle a).publishedAt = a.publishedAt) ∧
    (∀ s, a.publishedAtString = some s → s ≠ "" →
      (normalizeArticle a).publishedAt = s) := by
  refine ⟨rfl, rfl, rfl, rfl, rfl, rfl, rfl, rfl, ?_, ?_⟩
  · rintro (h | h) <;> simp [normalizeArticle, h]
  · intro s h hs
    simp [normalizeArticle, h, hs]

/-- Witness for C10: an empty (falsy) `publishedAtString` falls back to
the original `publishedAt`; a non-empty one replaces it, and the title is
untouched in both cases. -/
theorem normalizeArticle_frame_witness :
    (normalizeArticle { sampleArticle with publishedAtString := some "" }).publishedAt =
      sampleArticle.publishedAt ∧
    (normalizeArticle { sampleArticle with publishedAtString := some "2024-06-01" }).publishedAt =
      "2024-06-01" ∧
    (normalizeArticle { sampleArticle with publishedAtString := some "2024-06-01" }).title =
      sampleArticle.title :=
  ⟨(normalizeArticle_frame { sampleArticle with publishedAtString := some "" }).2.2.2.2.2.2.2.2.1
      (Or.inr rfl),
   (normalizeArticle_frame { sampleArticle with publishedAtString := some "2024-06-01" }).2.2.2.2.2.2.2.2.2
      "2024-06-01" rfl (by decide),
   (normalizeArticle_frame { sampleArticle with publishedAtString := some "2024-06-01" }).2.2.1⟩

end NewsApp
